import Mathlib

/-!
Verification development for the air-quality dashboard in
`src/dashboard/Dashboard.py`.

The dashboard loads an hourly air-quality dataset, derives a calendar-date
column (`preprocess_data`), filters rows by an inclusive date range and a
station set (`filter_data`), aggregates per-day per-station pollutant means
(`calculate_daily_avg`), counts compliant observation-hours per station
against a fixed limit table (`calculate_good_air_quality`), and summarises
five meteorological parameters (module-level Section 4).

Encoding choices:
  * A dataframe is a `List Obs`; a row (`Obs`) carries the columns the
    in-scope logic reads.
  * Calendar dates are day indices (`ℕ`): the code only compares dates with
    `≤`/`≥` and groups by equality, so any linearly ordered encoding is
    faithful.  The `year` field is the calendar year of the timestamp,
    derived upstream of the logic modelled here.
  * Measurements are `Option ℚ`: `none` models a missing value (NaN).
    A pandas comparison `series <= limit` is `False` at NaN, and pandas
    `mean`/`min`/`max` skip NaN, returning NaN when nothing remains; both
    behaviours are modelled explicitly below.
-/

/-- One hourly record of the Observation collection: the `DateTime` hour
index, the derived `Date` column added by `preprocess_data` (a day index),
the calendar year of the timestamp, the `station` identifier, the six
`*_interpolated` pollutant columns, the `O3_hour_avg` rolling average, and
the five `*_interpolated` meteorological columns.  `none` models NaN. -/
structure Obs where
  dateTime : ℕ
  date : ℕ
  year : ℕ
  station : String
  pm25i : Option ℚ
  pm10i : Option ℚ
  so2i : Option ℚ
  no2i : Option ℚ
  coi : Option ℚ
  o3i : Option ℚ
  o3h : Option ℚ
  temp : Option ℚ
  pres : Option ℚ
  dewp : Option ℚ
  rain : Option ℚ
  wspm : Option ℚ
  deriving DecidableEq, Repr

/-- The static pollutant limit table of Section 3 (source lines 136-143),
flattened: one field per (pollutant, averaging-window) entry. -/
structure PollutantLimits where
  pm25_1h : ℚ
  pm25_24h : ℚ
  pm10_24h : ℚ
  pm10_year : ℚ
  so2_1h : ℚ
  so2_24h : ℚ
  so2_year : ℚ
  no2_1h : ℚ
  no2_24h : ℚ
  no2_year : ℚ
  co_1h : ℚ
  co_24h : ℚ
  o3_1h : ℚ
  o3_8h : ℚ
  deriving DecidableEq, Repr

/-- The concrete `pollutant_limits` table defined at source lines 136-143. -/
def pollutant_limits : PollutantLimits :=
  ⟨75, 45, 150, 70, 500, 450, 60, 2000, 80, 40, 4000, 10000, 200, 160⟩

/-- NaN-aware comparison: pandas `value <= limit` yields `False` when the
value is NaN (`none`). -/
def optLE (v : Option ℚ) (limit : ℚ) : Bool :=
  match v with
  | none => false
  | some x => decide (x ≤ limit)

/-- `filter_data` (source lines 35-38): keep the rows whose derived `Date`
lies in the inclusive range and whose station is a member of the selected
station list (`isin`). -/
def filter_data (df : List Obs) (start_date end_date : ℕ) (stations : List String) : List Obs :=
  df.filter (fun o =>
    decide (start_date ≤ o.date) && decide (o.date ≤ end_date) && decide (o.station ∈ stations))

/-- The six-way compliance conjunction of `calculate_good_air_quality`
(source lines 62-69): the five interpolated pollutant columns against
their limit entries, and `O3_hour_avg` against the O3 1h entry.  A NaN in
any compared column makes the conjunction `false`. -/
def isGoodRow (lim : PollutantLimits) (o : Obs) : Bool :=
  optLE o.pm25i lim.pm25_1h && optLE o.pm10i lim.pm10_24h && optLE o.so2i lim.so2_1h &&
    optLE o.no2i lim.no2_1h && optLE o.coi lim.co_1h && optLE o.o3h lim.o3_1h

/-- `calculate_good_air_quality` (source lines 58-70): restrict to one
station, return the row count and the number of rows passing all six
limit comparisons (summing the boolean mask counts its `True` entries). -/
def calculate_good_air_quality (df : List Obs) (station : String) (lim : PollutantLimits) :
    ℕ × ℕ :=
  let station_data := df.filter (fun o => decide (o.station = station))
  (station_data.length, (station_data.filter (fun o => isGoodRow lim o)).length)

/-- The Section 3 percentage `(good_hours / total_hours) * 100` (source
line 149) on a `(totalHours, goodHours)` pair.  When `totalHours = 0` the
numpy scalar quotient `0 / 0` is NaN (no exception is raised); `none`
models that undefined result. -/
def goodPercentage (counts : ℕ × ℕ) : Option ℚ :=
  if counts.1 = 0 then none else some ((counts.2 : ℚ) / (counts.1 : ℚ) * 100)

/-- Value of a rational in hundredths after rounding to two decimal places,
as Python's format `"%.2f"` displays it at non-tie values. -/
def round2dp (q : ℚ) : ℤ :=
  ⌊q * 100 + 1 / 2⌋

/-- A row satisfying all six limits of the example table. -/
def oGood1 : Obs :=
  ⟨0, 1, 2013, "Aotizhongxin", some 50, some 100, some 10, some 20, some 1000, some 30,
    some 50, some 10, some 1000, some 5, some 0, some 2⟩

/-- A second row satisfying all six limits. -/
def oGood2 : Obs :=
  ⟨1, 1, 2013, "Aotizhongxin", some 60, some 120, some 20, some 30, some 2000, some 40,
    some 60, some 11, some 1001, some 6, some 0, some 3⟩

/-- A row violating only the NO2 bound (2500 > 2000). -/
def oBadNO2 : Obs :=
  ⟨2, 1, 2013, "Aotizhongxin", some 50, some 100, some 10, some 2500, some 1000, some 30,
    some 50, some 12, some 1002, some 7, some 0, some 4⟩

/-- The three-row single-station example subset used by the spec. -/
def exampleDf : List Obs :=
  [oGood1, oGood2, oBadNO2]

/-- C1: `calculate_good_air_quality` returns `totalHours` = the number of
observations of the station in the subset and `goodHours` = the number of
those observations satisfying all six limit comparisons simultaneously
(PM2.5/PM10/SO2/NO2/CO interpolated against the 1h/24h/1h/1h/1h entries and
`O3_hour_avg` against the O3 1h entry); on the example subset (3 rows, one
violating NO2) with the source limit table it returns `(3, 2)`, whose
percentage `200/3` displays as `66.67`. -/
theorem classify_counts_and_example (df : List Obs) (station : String) (lim : PollutantLimits) :
    calculate_good_air_quality df station lim =
      ((df.filter (fun o => decide (o.station = station))).length,
        (df.filter (fun o => decide (o.station = station) &&
          (optLE o.pm25i lim.pm25_1h && optLE o.pm10i lim.pm10_24h && optLE o.so2i lim.so2_1h &&
            optLE o.no2i lim.no2_1h && optLE o.coi lim.co_1h && optLE o.o3h lim.o3_1h))).length)
    ∧ calculate_good_air_quality exampleDf "Aotizhongxin" pollutant_limits = (3, 2)
    ∧ goodPercentage (3, 2) = some (200 / 3)
    ∧ round2dp (200 / 3) = 6667 := by
  refine ⟨?_, by decide, by norm_num [goodPercentage], by norm_num [round2dp]⟩
  simp only [calculate_good_air_quality]
  rw [List.filter_filter]
  have hcongr : ∀ o ∈ df, (isGoodRow lim o && decide (o.station = station)) =
      (decide (o.station = station) &&
        (optLE o.pm25i lim.pm25_1h && optLE o.pm10i lim.pm10_24h && optLE o.so2i lim.so2_1h &&
          optLE o.no2i lim.no2_1h && optLE o.coi lim.co_1h && optLE o.o3h lim.o3_1h)) := by
    intro o _
    rw [Bool.and_comm]
    rfl
  rw [List.filter_congr hcongr]

/-- C2: a station with no observation in the filtered subset yields
`(totalHours, goodHours) = (0, 0)`, and the percentage `0 / 0 * 100` is the
undefined (NaN) value `none` — reported as not-available, with no raised
error (the percentage function is total). -/
theorem zero_hours_undefined_percentage (df : List Obs) (station : String)
    (lim : PollutantLimits) (h : ∀ o ∈ df, o.station ≠ station) :
    calculate_good_air_quality df station lim = (0, 0) ∧
      goodPercentage (calculate_good_air_quality df station lim) = none := by
  have hnil : df.filter (fun o => decide (o.station = station)) = [] := by
    rw [List.filter_eq_nil_iff]
    intro o ho
    simpa using h o ho
  constructor
  · unfold calculate_good_air_quality
    rw [hnil]
    rfl
  · unfold calculate_good_air_quality
    rw [hnil]
    rfl

/-- A row of station B, used to exercise the zero-hour branch. -/
def oStationB : Obs :=
  ⟨0, 1, 2013, "Changping", some 50, some 100, some 10, some 20, some 1000, some 30,
    some 50, some 10, some 1000, some 5, some 0, some 2⟩

/-- Witness for C2 at a concrete input: a subset holding only station
"Changping" rows, classified for "Aotizhongxin". -/
theorem zero_hours_undefined_percentage_witness :
    calculate_good_air_quality [oStationB] "Aotizhongxin" pollutant_limits = (0, 0) ∧
      goodPercentage (calculate_good_air_quality [oStationB] "Aotizhongxin" pollutant_limits) =
        none :=
  zero_hours_undefined_percentage [oStationB] "Aotizhongxin" pollutant_limits (by decide)

/-- The error vocabulary the spec prescribes for the Filter Engine. -/
inductive RangeError where
  | invalidRange
  deriving DecidableEq, Repr

/-- Modelled from the spec: section 4.2 requires `startDate ≤ endDate` and,
when violated, failure with `InvalidRangeError` and no partial result.
This contract does not appear in `src/dashboard/Dashboard.py` (whose
`filter_data` is total); it is written here only to compare against
`filter_data`. -/
def filterSpec (df : List Obs) (start_date end_date : ℕ) (stations : List String) :
    Except RangeError (List Obs) :=
  if start_date ≤ end_date then Except.ok (filter_data df start_date end_date stations)
  else Except.error RangeError.invalidRange

/-- C3 counterexample: on a reversed range the source `filter_data`
returns the ordinary empty subset — it raises no error of any kind — while
the spec-mandated contract demands `InvalidRangeError`; at this concrete
input the code's result is not the contract's result. -/
theorem filter_reversed_range_counterexample :
    filter_data exampleDf 5 4 ["Aotizhongxin"] = [] ∧
      filterSpec exampleDf 5 4 ["Aotizhongxin"] = Except.error RangeError.invalidRange ∧
      filterSpec exampleDf 5 4 ["Aotizhongxin"] ≠
        Except.ok (filter_data exampleDf 5 4 ["Aotizhongxin"]) := by
  refine ⟨by decide, rfl, ?_⟩
  intro hc
  rw [show filterSpec exampleDf 5 4 ["Aotizhongxin"] = Except.error RangeError.invalidRange from
    rfl] at hc
  exact Except.noConfusion hc

/-- C3 amended: for `startDate > endDate` the source `filter_data` silently
returns the empty subset (the conjunctive date mask is unsatisfiable); no
`InvalidRangeError` exists in the code. -/
theorem filter_reversed_range_empty (df : List Obs) (s e : ℕ) (sts : List String)
    (h : e < s) : filter_data df s e sts = [] := by
  unfold filter_data
  rw [List.filter_eq_nil_iff]
  intro o _
  intro hcontra
  simp only [Bool.and_eq_true, decide_eq_true_eq] at hcontra
  exact absurd (le_trans hcontra.1.1 hcontra.1.2) (not_le.mpr h)

/-- Witness for the amended C3 at a concrete reversed range. -/
theorem filter_reversed_range_empty_witness :
    filter_data exampleDf 7 2 ["Aotizhongxin"] = [] :=
  filter_reversed_range_empty exampleDf 7 2 ["Aotizhongxin"] (by norm_num)

/-- C4: for a valid range, `filter_data` returns exactly the rows whose
date lies in the inclusive interval and whose station is in the requested
set (membership soundness and completeness), and an empty station set
yields an empty result. -/
theorem filter_sound_complete (df : List Obs) (s e : ℕ) (sts : List String) (_h : s ≤ e) :
    (∀ o : Obs, o ∈ filter_data df s e sts ↔
      (o ∈ df ∧ s ≤ o.date ∧ o.date ≤ e ∧ o.station ∈ sts)) ∧
    (sts = [] → filter_data df s e sts = []) := by
  constructor
  · intro o
    unfold filter_data
    simp [List.mem_filter, and_assoc]
  · intro hsts
    subst hsts
    unfold filter_data
    rw [List.filter_eq_nil_iff]
    intro o _
    simp

/-- Witness for C4: the concrete membership equivalence at row `oGood1`
and the empty-station-set case, on the example subset. -/
theorem filter_sound_complete_witness :
    (oGood1 ∈ filter_data exampleDf 0 10 ["Aotizhongxin"] ↔
      (oGood1 ∈ exampleDf ∧ 0 ≤ oGood1.date ∧ oGood1.date ≤ 10 ∧
        oGood1.station ∈ ["Aotizhongxin"])) ∧
    filter_data exampleDf 0 10 ([] : List String) = [] :=
  ⟨(filter_sound_complete exampleDf 0 10 ["Aotizhongxin"] (by norm_num)).1 oGood1,
    (filter_sound_complete exampleDf 0 10 [] (by norm_num)).2 rfl⟩

/-- C9: filtering is idempotent — filtering an already-filtered result
with the same bounds and station set returns the identical list. -/
theorem filter_idempotent (df : List Obs) (s e : ℕ) (sts : List String) (_h : s ≤ e) :
    filter_data (filter_data df s e sts) s e sts = filter_data df s e sts := by
  unfold filter_data
  rw [List.filter_filter]
  apply List.filter_congr
  intro o _
  rw [Bool.and_self]

/-- Witness for C9 on the example subset at a concrete valid range. -/
theorem filter_idempotent_witness :
    filter_data (filter_data exampleDf 0 10 ["Aotizhongxin"]) 0 10 ["Aotizhongxin"] =
      filter_data exampleDf 0 10 ["Aotizhongxin"] :=
  filter_idempotent exampleDf 0 10 ["Aotizhongxin"] (by norm_num)

/-- Outcome of the file-system side of `load_data`: either the archive was
extracted and the tabular file parsed into rows, or some step raised
(missing archive, corrupt zip, absent file or columns). -/
inductive LoadOutcome where
  | success (rows : List Obs)
  | failure (msg : String)
  deriving DecidableEq, Repr

/-- `load_data` (source lines 12-28), abstracted over the file-system
outcome: success returns the parsed rows; any exception is caught, an
error message is displayed, and `None` is returned. -/
def load_data (outcome : LoadOutcome) : Option (List Obs) :=
  match outcome with
  | LoadOutcome.success rows => some rows
  | LoadOutcome.failure _ => none

/-- Result of running the module-level startup code. -/
inductive StartupOutcome where
  | crashNoneSubscript
  | ready (df : List Obs)
  deriving DecidableEq, Repr

/-- The module-level startup flow (source lines 73-81): `df = load_data()`;
`preprocess_data` is applied only under the `if df is not None` guard (on
this embedding it is the identity, since rows already carry the derived
`Date` field); the sidebar then unconditionally evaluates
`df['Date'].min()` (line 79).  Subscripting `None` there raises an
unhandled `TypeError`, modelled as `crashNoneSubscript`. -/
def dashboard_startup (loaded : Option (List Obs)) : StartupOutcome :=
  match loaded with
  | none => StartupOutcome.crashNoneSubscript
  | some df => StartupOutcome.ready df

/-- C5: contrary to the claim, a load failure does not halt downstream
computation in an empty flagged state — `load_data` catches the exception
and returns `None` after showing a warning, but the sidebar setup then
subscripts `None` (`df['Date']`, source line 79), an unhandled fault. -/
theorem load_failure_reaches_unhandled_fault (msg : String) :
    dashboard_startup (load_data (LoadOutcome.failure msg)) =
      StartupOutcome.crashNoneSubscript :=
  rfl

/-- The five meteorological parameters of Section 4 (source line 154). -/
inductive Param where
  | TEMP
  | PRES
  | DEWP
  | RAIN
  | WSPM
  deriving DecidableEq, Repr

/-- The `{param}_interpolated` column selected for a parameter. -/
def paramCol : Param → Obs → Option ℚ
  | Param.TEMP => fun o => o.temp
  | Param.PRES => fun o => o.pres
  | Param.DEWP => fun o => o.dewp
  | Param.RAIN => fun o => o.rain
  | Param.WSPM => fun o => o.wspm

/-- pandas `Series.min()` with NaN skipped (the present values are the
`filterMap` of the column); the minimum of nothing is NaN (`none`). -/
def listMin (l : List ℚ) : Option ℚ :=
  l.foldl (fun acc x =>
    match acc with
    | none => some x
    | some m => some (min m x)) none

/-- pandas `Series.max()` with NaN skipped; the maximum of nothing is NaN. -/
def listMax (l : List ℚ) : Option ℚ :=
  l.foldl (fun acc x =>
    match acc with
    | none => some x
    | some m => some (max m x)) none

/-- pandas `Series.mean()` with NaN skipped; the mean of nothing is NaN. -/
def listMean (l : List ℚ) : Option ℚ :=
  if l.isEmpty then none else some (l.sum / l.length)

/-- The Section 4 loop body (source lines 156-165): min, max and mean of
one parameter's interpolated column over the filtered subset. -/
def external_summary (df : List Obs) (p : Param) : Option ℚ × Option ℚ × Option ℚ :=
  (listMin (df.filterMap (paramCol p)), listMax (df.filterMap (paramCol p)),
    listMean (df.filterMap (paramCol p)))

/-- C8: a meteorological parameter whose interpolated column is entirely
absent in the subset summarises to `none` (NaN / not-available) for min,
max and mean alike — no numeric error sentinel appears. -/
theorem all_missing_parameter_not_available (df : List Obs) (p : Param)
    (h : ∀ o ∈ df, paramCol p o = none) :
    external_summary df p = (none, none, none) := by
  have hnil : df.filterMap (paramCol p) = [] := List.filterMap_eq_nil_iff.mpr h
  simp [external_summary, hnil, listMin, listMax, listMean]

/-- A row whose five meteorological readings are all missing. -/
def oNoWeather : Obs :=
  ⟨0, 1, 2013, "Aotizhongxin", some 50, some 100, some 10, some 20, some 1000, some 30,
    some 50, none, none, none, none, none⟩

/-- Witness for C8: an all-missing TEMP column summarises to three `none`s. -/
theorem all_missing_parameter_not_available_witness :
    external_summary [oNoWeather] Param.TEMP = (none, none, none) :=
  all_missing_parameter_not_available [oNoWeather] Param.TEMP (by decide)

/-- A reading is missing in one of the six columns compared by
`calculate_good_air_quality`. -/
def missingSix (o : Obs) : Bool :=
  o.pm25i.isNone || o.pm10i.isNone || o.so2i.isNone || o.no2i.isNone || o.coi.isNone ||
    o.o3h.isNone

/-- C10: an observation with a missing value in any of the six compared
columns is counted in `totalHours` (which counts every station row), never
satisfies the compliance conjunction, and therefore never contributes to
`goodHours`: `goodHours` is bounded by the station rows with all six
columns present. -/
theorem missing_readings_non_compliant (df : List Obs) (station : String)
    (lim : PollutantLimits) :
    (calculate_good_air_quality df station lim).1 =
        (df.filter (fun o => decide (o.station = station))).length
      ∧ (∀ o : Obs, missingSix o = true → isGoodRow lim o = false)
      ∧ (calculate_good_air_quality df station lim).2 ≤
          (df.filter (fun o => decide (o.station = station) && !missingSix o)).length := by
  have hmiss : ∀ o : Obs, missingSix o = true → isGoodRow lim o = false := by
    intro o h
    simp only [missingSix, Bool.or_eq_true, Option.isNone_iff_eq_none] at h
    rcases h with ((((h | h) | h) | h) | h) | h <;> simp [isGoodRow, optLE, h]
  refine ⟨rfl, hmiss, ?_⟩
  simp only [calculate_good_air_quality]
  rw [List.filter_filter]
  rw [← List.countP_eq_length_filter, ← List.countP_eq_length_filter]
  apply List.countP_mono_left
  intro o _ hp
  simp only [Bool.and_eq_true] at hp ⊢
  refine ⟨hp.2, ?_⟩
  cases hm : missingSix o with
  | false => rfl
  | true =>
    rw [hmiss o hm] at hp
    exact absurd hp.1 Bool.false_ne_true

/-- A station row whose NO2 reading is missing. -/
def oMissingNO2 : Obs :=
  ⟨3, 1, 2013, "Aotizhongxin", some 50, some 100, some 10, none, some 1000, some 30,
    some 50, some 10, some 1000, some 5, some 0, some 2⟩

/-- Witness for C10 at a concrete input: the missing-NO2 row is counted in
the total but never in the good count. -/
theorem missing_readings_non_compliant_witness :
    (calculate_good_air_quality [oGood1, oMissingNO2] "Aotizhongxin" pollutant_limits).1 =
        ([oGood1, oMissingNO2].filter (fun o => decide (o.station = "Aotizhongxin"))).length
      ∧ isGoodRow pollutant_limits oMissingNO2 = false
      ∧ (calculate_good_air_quality [oGood1, oMissingNO2] "Aotizhongxin" pollutant_limits).2 ≤
          ([oGood1, oMissingNO2].filter
            (fun o => decide (o.station = "Aotizhongxin") && !missingSix o)).length :=
  ⟨(missing_readings_non_compliant [oGood1, oMissingNO2] "Aotizhongxin" pollutant_limits).1,
    (missing_readings_non_compliant [oGood1, oMissingNO2] "Aotizhongxin"
      pollutant_limits).2.1 oMissingNO2 (by decide),
    (missing_readings_non_compliant [oGood1, oMissingNO2] "Aotizhongxin" pollutant_limits).2.2⟩

/-- Characters with equal code points are equal. -/
lemma charToNat_inj (a b : Char) (h : a.toNat = b.toNat) : a = b := by
  cases a; cases b
  simp only [Char.toNat] at h
  congr 1
  exact UInt32.toNat.inj h

/-- Strings with equal character lists are equal. -/
lemma str_data_inj {a b : String} (h : a.data = b.data) : a = b := by
  cases a; cases b
  simp only at h
  rw [h]

/-- Lexicographic strict order on character lists by code point — Python's
`str` comparison, which orders pandas group keys. -/
def charListLt : List Char → List Char → Bool
  | [], [] => false
  | [], _ :: _ => true
  | _ :: _, [] => false
  | a :: as, b :: bs => if a = b then charListLt as bs else decide (a.toNat < b.toNat)

/-- Any two character lists compare: less, greater, or equal. -/
lemma charListLt_trichotomy : ∀ as bs : List Char,
    charListLt as bs = true ∨ charListLt bs as = true ∨ as = bs := by
  intro as
  induction as with
  | nil =>
    intro bs
    cases bs with
    | nil => exact Or.inr (Or.inr rfl)
    | cons b bs => exact Or.inl rfl
  | cons a as ih =>
    intro bs
    cases bs with
    | nil => exact Or.inr (Or.inl rfl)
    | cons b bs =>
      by_cases hab : a = b
      · rcases ih bs with h | h | h
        · exact Or.inl (by simp [charListLt, hab, h])
        · exact Or.inr (Or.inl (by simp [charListLt, hab.symm, h]))
        · exact Or.inr (Or.inr (by rw [hab, h]))
      · rcases Nat.lt_trichotomy a.toNat b.toNat with h | h | h
        · exact Or.inl (by simp [charListLt, hab, h])
        · exact absurd (charToNat_inj a b h) hab
        · have hba : ¬b = a := fun he => hab he.symm
          exact Or.inr (Or.inl (by simp [charListLt, hba, h]))

/-- The lexicographic strict order is transitive. -/
lemma charListLt_trans : ∀ as bs cs : List Char,
    charListLt as bs = true → charListLt bs cs = true → charListLt as cs = true := by
  intro as
  induction as with
  | nil =>
    intro bs cs h1 h2
    cases bs with
    | nil => exact absurd h1 (by simp [charListLt])
    | cons b bs =>
      cases cs with
      | nil => exact absurd h2 (by simp [charListLt])
      | cons c cs => simp [charListLt]
  | cons a as ih =>
    intro bs cs h1 h2
    cases bs with
    | nil => exact absurd h1 (by simp [charListLt])
    | cons b bs =>
      cases cs with
      | nil => exact absurd h2 (by simp [charListLt])
      | cons c cs =>
        have key1 : a.toNat < b.toNat ∨ (a = b ∧ charListLt as bs = true) := by
          by_cases hab : a = b
          · exact Or.inr ⟨hab, by simpa [charListLt, hab] using h1⟩
          · exact Or.inl (by simpa [charListLt, hab] using h1)
        have key2 : b.toNat < c.toNat ∨ (b = c ∧ charListLt bs cs = true) := by
          by_cases hbc : b = c
          · exact Or.inr ⟨hbc, by simpa [charListLt, hbc] using h2⟩
          · exact Or.inl (by simpa [charListLt, hbc] using h2)
        rcases key1 with h1' | ⟨hab, h1'⟩ <;> rcases key2 with h2' | ⟨hbc, h2'⟩
        · have hac : a.toNat < c.toNat := lt_trans h1' h2'
          have hne : ¬a = c := fun he => absurd (he ▸ hac) (lt_irrefl _)
          simp only [charListLt, if_neg hne, decide_eq_true_eq]
          exact hac
        · have hac : a.toNat < c.toNat := by rw [← hbc]; exact h1'
          have hne : ¬a = c := fun he => absurd (he ▸ hac) (lt_irrefl _)
          simp only [charListLt, if_neg hne, decide_eq_true_eq]
          exact hac
        · have hac : a.toNat < c.toNat := by rw [hab]; exact h2'
          have hne : ¬a = c := fun he => absurd (he ▸ hac) (lt_irrefl _)
          simp only [charListLt, if_neg hne, decide_eq_true_eq]
          exact hac
        · have hac : a = c := hab.trans hbc
          simp only [charListLt, if_pos hac]
          exact ih bs cs h1' h2'

/-- Strict string order by code-point lexicographic comparison. -/
def strLt (a b : String) : Bool :=
  charListLt a.data b.data

/-- The (date, station) group-key order used by pandas `groupby` with
`sort=True`: dates first, then station strings lexicographically. -/
def keyLe (a b : ℕ × String) : Prop :=
  a.1 < b.1 ∨ (a.1 = b.1 ∧ (strLt a.2 b.2 = true ∨ a.2 = b.2))

instance keyLeDecidable : DecidableRel keyLe := fun a b => by
  unfold keyLe
  exact inferInstance

instance keyLeTotal : IsTotal (ℕ × String) keyLe := by
  constructor
  intro a b
  rcases Nat.lt_trichotomy a.1 b.1 with h | h | h
  · exact Or.inl (Or.inl h)
  · rcases charListLt_trichotomy a.2.data b.2.data with hs | hs | hs
    · exact Or.inl (Or.inr ⟨h, Or.inl hs⟩)
    · exact Or.inr (Or.inr ⟨h.symm, Or.inl hs⟩)
    · exact Or.inl (Or.inr ⟨h, Or.inr (str_data_inj hs)⟩)
  · exact Or.inr (Or.inl h)

instance keyLeTrans : IsTrans (ℕ × String) keyLe := by
  constructor
  intro a b c hab hbc
  rcases hab with h1 | ⟨h1, hs1⟩
  · rcases hbc with h2 | ⟨h2, _⟩
    · exact Or.inl (lt_trans h1 h2)
    · exact Or.inl (by rw [← h2]; exact h1)
  · rcases hbc with h2 | ⟨h2, hs2⟩
    · exact Or.inl (by rw [h1]; exact h2)
    · refine Or.inr ⟨h1.trans h2, ?_⟩
      rcases hs1 with hl1 | he1
      · rcases hs2 with hl2 | he2
        · exact Or.inl (charListLt_trans _ _ _ hl1 hl2)
        · exact Or.inl (by rw [← he2]; exact hl1)
      · rcases hs2 with hl2 | he2
        · exact Or.inl (by rw [he1]; exact hl2)
        · exact Or.inr (he1.trans he2)

/-- One aggregate output row: the six mean pollutant columns of
`calculate_daily_avg` (source lines 43-50). -/
structure AggRow where
  pm25 : Option ℚ
  pm10 : Option ℚ
  so2 : Option ℚ
  no2 : Option ℚ
  co : Option ℚ
  o3 : Option ℚ
  deriving DecidableEq, Repr

/-- The `agg` dictionary of `calculate_daily_avg`: per-column NaN-skipping
arithmetic mean over one group. -/
def aggRow (g : List Obs) : AggRow :=
  ⟨listMean (g.filterMap (fun o => o.pm25i)), listMean (g.filterMap (fun o => o.pm10i)),
    listMean (g.filterMap (fun o => o.so2i)), listMean (g.filterMap (fun o => o.no2i)),
    listMean (g.filterMap (fun o => o.coi)), listMean (g.filterMap (fun o => o.o3i))⟩

/-- pandas `groupby(keys).agg(mean).reset_index()`: one output row per
distinct key of `df`, keys sorted ascending (`sort=True`, the default),
each row holding the per-column means of its group. -/
def groupAgg {κ : Type} [DecidableEq κ] (r : κ → κ → Prop) [DecidableRel r]
    (key : Obs → κ) (df : List Obs) : List (κ × AggRow) :=
  (List.insertionSort r (df.map key).dedup).map
    (fun k => (k, aggRow (df.filter (fun o => decide (key o = k)))))

/-- The (Date, station) grouping key of `calculate_daily_avg`. -/
def keyOf (o : Obs) : ℕ × String :=
  (o.date, o.station)

/-- `calculate_daily_avg` (source lines 41-50): group the subset by
(Date, station) and take the mean of the six interpolated pollutant
columns. -/
def calculate_daily_avg (df : List Obs) : List ((ℕ × String) × AggRow) :=
  groupAgg keyLe keyOf df

instance natLeRelTotal : IsTotal ℕ (fun a b : ℕ => a ≤ b) :=
  ⟨Nat.le_total⟩

instance natLeRelTrans : IsTrans ℕ (fun a b : ℕ => a ≤ b) :=
  ⟨fun _ _ _ => Nat.le_trans⟩

/-- Modelled from the spec: `yearlyAverage(subset)` — rows keyed by year
with the same mean semantics as the daily aggregation.  The yearly
aggregation belongs to the repository's other dashboard variant, which is
not under `src/`; it is the year-keyed instance of the same
groupby-and-mean pipeline as `calculate_daily_avg`. -/
def yearly_avg (df : List Obs) : List (ℕ × AggRow) :=
  groupAgg (fun a b : ℕ => a ≤ b) (fun o => o.year) df

/-- Modelled from the spec: the yearly summary table is computed exactly
when the selected range spans more than 365 days, and otherwise not
invoked. -/
def yearly_section (start_date end_date : ℕ) (df : List Obs) : Option (List (ℕ × AggRow)) :=
  if 365 < end_date - start_date then some (yearly_avg df) else none

/-- The key column of the aggregate output is the sorted deduplication of
the subset's keys. -/
lemma groupAgg_map_fst {κ : Type} [DecidableEq κ] (r : κ → κ → Prop) [DecidableRel r]
    (key : Obs → κ) (df : List Obs) :
    (groupAgg r key df).map Prod.fst = List.insertionSort r (df.map key).dedup := by
  unfold groupAgg
  rw [List.map_map]
  have hid : (Prod.fst ∘ fun k : κ =>
      (k, aggRow (df.filter (fun o => decide (key o = k))))) = id := rfl
  rw [hid, List.map_id]

/-- A key appears in the aggregate output iff some subset row has it. -/
lemma groupAgg_mem_keys {κ : Type} [DecidableEq κ] (r : κ → κ → Prop) [DecidableRel r]
    (key : Obs → κ) (df : List Obs) (k : κ) :
    k ∈ (groupAgg r key df).map Prod.fst ↔ k ∈ df.map key := by
  rw [groupAgg_map_fst, (List.perm_insertionSort r _).mem_iff, List.mem_dedup]

/-- No key appears twice in the aggregate output. -/
lemma groupAgg_keys_nodup {κ : Type} [DecidableEq κ] (r : κ → κ → Prop) [DecidableRel r]
    (key : Obs → κ) (df : List Obs) :
    ((groupAgg r key df).map Prod.fst).Nodup := by
  rw [groupAgg_map_fst]
  exact ((List.perm_insertionSort r _).nodup_iff).mpr (List.nodup_dedup _)

/-- The aggregate output keys are sorted ascending. -/
lemma groupAgg_keys_sorted {κ : Type} [DecidableEq κ] (r : κ → κ → Prop) [DecidableRel r]
    [IsTotal κ r] [IsTrans κ r] (key : Obs → κ) (df : List Obs) :
    List.Sorted r ((groupAgg r key df).map Prod.fst) := by
  rw [groupAgg_map_fst]
  exact List.sorted_insertionSort r _

/-- Every aggregate output row holds the per-column means of the subset
rows sharing its key. -/
lemma groupAgg_row_val {κ : Type} [DecidableEq κ] (r : κ → κ → Prop) [DecidableRel r]
    (key : Obs → κ) (df : List Obs) :
    ∀ p ∈ groupAgg r key df, p.2 = aggRow (df.filter (fun o => decide (key o = p.1))) := by
  intro p hp
  unfold groupAgg at hp
  rcases List.mem_map.mp hp with ⟨k, _, hk⟩
  rw [← hk]

/-- In a duplicate-free list, a member is matched by exactly one entry. -/
lemma countP_eq_one_of_nodup_mem {α : Type} [DecidableEq α] {l : List α} {a : α}
    (hn : l.Nodup) (ha : a ∈ l) : l.countP (fun x => decide (x = a)) = 1 := by
  induction l with
  | nil => cases ha
  | cons b bs ih =>
    rw [List.countP_cons]
    rcases List.mem_cons.mp ha with rfl | hmem
    · have hz : bs.countP (fun x => decide (x = a)) = 0 := by
        rw [List.countP_eq_zero]
        intro x hx
        simp only [decide_eq_true_eq]
        intro he
        exact (List.nodup_cons.mp hn).1 (he ▸ hx)
      simp [hz]
    · have hne : ¬(b = a) := fun he => (List.nodup_cons.mp hn).1 (he ▸ hmem)
      have hc := ih (List.nodup_cons.mp hn).2 hmem
      simp [hc, hne]

/-- C7: `calculate_daily_avg` emits exactly one row per distinct
(date, station) pair of the subset — every observation's key appears
exactly once in the output — with the key column sorted ascending
(date-major, then station lexicographically) and each row equal to the
per-column NaN-skipping arithmetic means of the observations sharing its
key. -/
theorem daily_average_characterization (df : List Obs) :
    (∀ k : ℕ × String, k ∈ (calculate_daily_avg df).map Prod.fst ↔ k ∈ df.map keyOf)
    ∧ ((calculate_daily_avg df).map Prod.fst).Nodup
    ∧ List.Sorted keyLe ((calculate_daily_avg df).map Prod.fst)
    ∧ (∀ o ∈ df,
        ((calculate_daily_avg df).map Prod.fst).countP (fun k => decide (k = keyOf o)) = 1)
    ∧ (∀ p ∈ calculate_daily_avg df,
        p.2 = aggRow (df.filter (fun o => decide (keyOf o = p.1)))) := by
  refine ⟨groupAgg_mem_keys keyLe keyOf df, groupAgg_keys_nodup keyLe keyOf df,
    groupAgg_keys_sorted keyLe keyOf df, ?_, groupAgg_row_val keyLe keyOf df⟩
  intro o ho
  exact countP_eq_one_of_nodup_mem (groupAgg_keys_nodup keyLe keyOf df)
    ((groupAgg_mem_keys keyLe keyOf df (keyOf o)).mpr (List.mem_map_of_mem keyOf ho))

/-- Witness for C7 on a two-station subset: the key of the first row
appears exactly once, and key membership matches the subset's keys. -/
theorem daily_average_characterization_witness :
    ((calculate_daily_avg [oGood1, oStationB]).map Prod.fst).countP
        (fun k => decide (k = keyOf oGood1)) = 1
    ∧ (keyOf oStationB ∈ (calculate_daily_avg [oGood1, oStationB]).map Prod.fst ↔
        keyOf oStationB ∈ [oGood1, oStationB].map keyOf) :=
  ⟨(daily_average_characterization [oGood1, oStationB]).2.2.2.1 oGood1
      (List.mem_cons_self oGood1 [oStationB]),
    (daily_average_characterization [oGood1, oStationB]).1 (keyOf oStationB)⟩

/-- C6: the yearly summary is computed exactly when the selected range
spans more than 365 days, and the yearly aggregation returns one sorted
row per distinct year with the same mean semantics (`aggRow`) as the
daily aggregation. -/
theorem yearly_average_gating_and_semantics (start_date end_date : ℕ) (df : List Obs) :
    (365 < end_date - start_date →
      yearly_section start_date end_date df = some (yearly_avg df))
    ∧ (end_date - start_date ≤ 365 → yearly_section start_date end_date df = none)
    ∧ (∀ y : ℕ, y ∈ (yearly_avg df).map Prod.fst ↔ y ∈ df.map (fun o => o.year))
    ∧ ((yearly_avg df).map Prod.fst).Nodup
    ∧ List.Sorted (fun a b : ℕ => a ≤ b) ((yearly_avg df).map Prod.fst)
    ∧ (∀ p ∈ yearly_avg df,
        p.2 = aggRow (df.filter (fun o => decide (o.year = p.1)))) := by
  refine ⟨?_, ?_, groupAgg_mem_keys _ _ df, groupAgg_keys_nodup _ _ df,
    groupAgg_keys_sorted _ _ df, groupAgg_row_val _ _ df⟩
  · intro h
    unfold yearly_section
    rw [if_pos h]
  · intro h
    unfold yearly_section
    rw [if_neg (not_lt.mpr h)]

/-- Witness for C6: a 400-day span produces the yearly table, a 100-day
span does not. -/
theorem yearly_average_gating_witness :
    yearly_section 0 400 exampleDf = some (yearly_avg exampleDf)
    ∧ yearly_section 0 100 exampleDf = none :=
  ⟨(yearly_average_gating_and_semantics 0 400 exampleDf).1 (by norm_num),
    (yearly_average_gating_and_semantics 0 100 exampleDf).2.1 (by norm_num)⟩
